import Mathlib

/-!
Shallow embedding of `include/boost/1.64/boost/serialization/singleton.hpp`.

Two designs live in that header:

* the default (non-thread-safe) design: `singleton_module` (a single global
  lock gate), `detail::singleton_wrapper<T>` (a per-type static destroyed
  flag set by the wrapper destructor) and `singleton<T>` with
  `get_instance` / `get_mutable_instance` / `get_const_instance` /
  `is_destroyed`, plus the eager static member
  `T & singleton<T>::instance = get_instance()`;
* the thread-safe variant (`USE_UNM_SINGLETON`): `singleton<T, threadsafe>`
  with a per-type mutex, an `initialized` flag and a double-checked
  locking pattern, no gate assertion and no destroyed flag.

Types are modelled by a natural-number type id: every distinct `T`
instantiation gets its own per-type static data, while the lock gate is a
single shared boolean (it lives in the non-template base `singleton_module`).
References are modelled by identity tokens (`instId`): the C++ code always
returns a reference to the one function-local static, so two references are
identical exactly when their tokens are equal.  `BOOST_ASSERT` in a debug
build is a fatal stop; it is modelled as an `Except.error` carrying which
assertion fired.
-/

namespace BoostSingleton

/-- Which `BOOST_ASSERT` fired (debug-build fatal stop): the
`BOOST_ASSERT(! is_locked())` in `get_mutable_instance`, or the
`BOOST_ASSERT(! m_is_destroyed)` in `get_instance`. -/
inductive AssertKind where
  | lockViolation
  | destroyedViolation
deriving DecidableEq, Repr

/-- Per-type static data of `singleton<T>` and `detail::singleton_wrapper<T>`:
whether the function-local static `t` has been constructed, the identity token
of that object, the static flag `m_is_destroyed`, and how many times the
wrapped constructor has run (instrumentation for the once-only property). -/
structure PerType where
  constructed : Bool
  instId : Nat
  m_is_destroyed : Bool
  constructCount : Nat
deriving DecidableEq, Repr

/-- The whole load unit's static state: the single gate boolean behind
`singleton_module::get_lock()`, the per-type statics, and a fresh-identity
counter used to hand out identity tokens at construction. -/
structure GlobalState where
  locked : Bool
  types : Nat → PerType
  nextId : Nat

/-- A never-accessed type: unconstructed, not destroyed, zero constructions. -/
def initPerType : PerType :=
  { constructed := false, instId := 0, m_is_destroyed := false, constructCount := 0 }

/-- State at load time: gate unlocked (the static bool behind `get_lock()`
starts `false`), every type unconstructed. -/
def initState : GlobalState :=
  { locked := false, types := fun _ => initPerType, nextId := 0 }

/-- Construction of the function-local `static detail::singleton_wrapper<T> t`:
runs the wrapped constructor once and fixes the object's identity. The wrapper
constructor does not touch `m_is_destroyed`. -/
def constructWrapper (t : Nat) (s : GlobalState) : GlobalState :=
  { s with
    types := Function.update s.types t
      { s.types t with
        constructed := true
        instId := s.nextId
        constructCount := (s.types t).constructCount + 1 }
    nextId := s.nextId + 1 }

/-- Embedding of `singleton<T>::get_instance` (lines 214-221): the function-local static is
constructed on first entry, then `BOOST_ASSERT(! m_is_destroyed)` runs on
every call; on success it returns a reference to the static. -/
def get_instance (t : Nat) (s : GlobalState) : Except AssertKind (Nat × GlobalState) :=
  let s1 := if (s.types t).constructed then s else constructWrapper t s
  if (s1.types t).m_is_destroyed then
    Except.error AssertKind.destroyedViolation
  else
    Except.ok ((s1.types t).instId, s1)

/-- Embedding of `singleton_module::is_locked` (lines 177-179): reads the gate. -/
def is_locked (s : GlobalState) : Bool := s.locked

/-- Embedding of `singleton_module::lock` (lines 169-171): `get_lock() = true`. -/
def lock (s : GlobalState) : GlobalState := { s with locked := true }

/-- Embedding of `singleton_module::unlock` (lines 173-175): `get_lock() = false`. -/
def unlock (s : GlobalState) : GlobalState := { s with locked := false }

/-- Embedding of `singleton<T>::get_mutable_instance` (lines 223-226):
`BOOST_ASSERT(! is_locked())`, then `get_instance()`. -/
def get_mutable_instance (t : Nat) (s : GlobalState) : Except AssertKind (Nat × GlobalState) :=
  if is_locked s then Except.error AssertKind.lockViolation else get_instance t s

/-- Embedding of `singleton<T>::get_const_instance` (lines 227-229): `get_instance()`,
with no gate check. -/
def get_const_instance (t : Nat) (s : GlobalState) : Except AssertKind (Nat × GlobalState) :=
  get_instance t s

/-- Embedding of `singleton<T>::is_destroyed` (lines 230-232): reads
`detail::singleton_wrapper<T>::m_is_destroyed` directly, with no call to
`get_instance`; it returns the flag and leaves the state untouched. -/
def is_destroyed (t : Nat) (s : GlobalState) : Bool × GlobalState :=
  ((s.types t).m_is_destroyed, s)

/-- Observable events of the default design.  `etouch t` is the eager
static-initialization touch `T & singleton<T>::instance = get_instance()`
(line 236), which calls `get_instance` and drops the reference;
`eteardown t` is the host environment destroying the function-local static,
running `~singleton_wrapper` (lines 191-193) which sets `m_is_destroyed`. -/
inductive Event where
  | elock
  | eunlock
  | emut (t : Nat)
  | econst (t : Nat)
  | etouch (t : Nat)
  | eteardown (t : Nat)
deriving DecidableEq, Repr

/-- One event's effect on the load unit's state; `none` when a debug
assertion halted the program.  The destructor step only exists for a
constructed, not-yet-destroyed wrapper (static storage is destroyed exactly
once, and only if it was constructed). -/
def step (s : GlobalState) : Event → Option GlobalState
  | Event.elock => some (lock s)
  | Event.eunlock => some (unlock s)
  | Event.emut t => ((get_mutable_instance t s).map Prod.snd).toOption
  | Event.econst t => ((get_const_instance t s).map Prod.snd).toOption
  | Event.etouch t => ((get_instance t s).map Prod.snd).toOption
  | Event.eteardown t =>
      if (s.types t).constructed && !(s.types t).m_is_destroyed then
        some { s with
          types := Function.update s.types t { s.types t with m_is_destroyed := true } }
      else none

/-- Runs a list of events from a state, halting on a failed assertion. -/
def run (s : GlobalState) : List Event → Option GlobalState
  | [] => some s
  | e :: es => (step s e).bind (fun s' => run s' es)

/-- States the load unit can actually be in. -/
inductive Reachable : GlobalState → Prop where
  | init : Reachable initState
  | next : ∀ {s e s'}, Reachable s → step s e = some s' → Reachable s'

/-- Whether an event is an accessor call (or the eager touch) for type `t`:
exactly the events that can construct `t`'s wrapper. -/
def accessesType (t : Nat) : Event → Bool
  | Event.emut u => t == u
  | Event.econst u => t == u
  | Event.etouch u => t == u
  | _ => false

/-! ### Basic lemmas about the embedded operations -/

@[simp] theorem constructWrapper_types_self (t : Nat) (s : GlobalState) :
    (constructWrapper t s).types t =
      { s.types t with
        constructed := true
        instId := s.nextId
        constructCount := (s.types t).constructCount + 1 } := by
  simp [constructWrapper]

theorem constructWrapper_types_ne {t u : Nat} (h : u ≠ t) (s : GlobalState) :
    (constructWrapper t s).types u = s.types u := by
  simp [constructWrapper, Function.update_noteq h]

@[simp] theorem constructWrapper_locked (t : Nat) (s : GlobalState) :
    (constructWrapper t s).locked = s.locked := rfl

/-- Closed form of `get_instance`: the construct-then-assert body, with the
constructor's non-effect on `m_is_destroyed` folded in. -/
theorem get_instance_eq (t : Nat) (s : GlobalState) :
    get_instance t s =
      if (s.types t).m_is_destroyed then Except.error AssertKind.destroyedViolation
      else if (s.types t).constructed then Except.ok ((s.types t).instId, s)
      else Except.ok (s.nextId, constructWrapper t s) := by
  unfold get_instance
  by_cases hc : (s.types t).constructed
  · simp [hc]
  · simp [hc]

/-- A successful `get_instance` call means the destroyed flag was clear, and
the resulting state is the input, constructed on demand. -/
theorem get_instance_map_some {t : Nat} {s s' : GlobalState}
    (h : ((get_instance t s).map Prod.snd).toOption = some s') :
    (s.types t).m_is_destroyed = false ∧
      s' = if (s.types t).constructed then s else constructWrapper t s := by
  rw [get_instance_eq] at h
  by_cases hd : (s.types t).m_is_destroyed
  · simp [hd, Except.map, Except.toOption] at h
  · by_cases hc : (s.types t).constructed <;>
      simp [hd, hc, Except.map, Except.toOption] at h <;>
      exact ⟨by simp [hd], by simp [hc, ← h]⟩

/-- The destructor step only runs on a constructed wrapper. -/
theorem step_teardown_constructed {s s' : GlobalState} {u : Nat}
    (h : step s (Event.eteardown u) = some s') :
    (s.types u).constructed = true := by
  by_cases hc : (s.types u).constructed
  · exact hc
  · simp [step, hc] at h

/-- Effect of one successful event on type `u`'s statics: accessor events for
`u` set `constructed`; only `u`'s own teardown sets `m_is_destroyed`; the
identity of a constructed instance never changes; and the constructor runs
exactly on a first access. -/
theorem step_effect {s : GlobalState} {e : Event} {s' : GlobalState} (u : Nat)
    (h : step s e = some s') :
    (s'.types u).constructed = ((s.types u).constructed || accessesType u e) ∧
    (s'.types u).m_is_destroyed
      = ((s.types u).m_is_destroyed || decide (e = Event.eteardown u)) ∧
    ((s.types u).constructed = true → (s'.types u).instId = (s.types u).instId) ∧
    (s'.types u).constructCount
      = (s.types u).constructCount +
          (if !(s.types u).constructed && accessesType u e then 1 else 0) := by
  cases e with
  | elock =>
    simp [step, lock] at h
    simp [← h, accessesType]
  | eunlock =>
    simp [step, unlock] at h
    simp [← h, accessesType]
  | emut t =>
    rw [step, get_mutable_instance] at h
    by_cases hl : is_locked s
    · simp [hl, Except.map, Except.toOption] at h
    · rw [if_neg hl] at h
      obtain ⟨hd, hs⟩ := get_instance_map_some h
      by_cases hut : u = t
      · subst hut
        by_cases hc : (s.types u).constructed <;>
          simp [hc, hs, accessesType]
      · have hne : (s'.types u) = s.types u := by
          by_cases hc : (s.types t).constructed
          · simp [hs, hc]
          · simp [hs, hc, constructWrapper_types_ne hut]
        simp [hne, accessesType, hut]
  | econst t =>
    rw [step, get_const_instance] at h
    obtain ⟨hd, hs⟩ := get_instance_map_some h
    by_cases hut : u = t
    · subst hut
      by_cases hc : (s.types u).constructed <;>
        simp [hc, hs, accessesType]
    · have hne : (s'.types u) = s.types u := by
        by_cases hc : (s.types t).constructed
        · simp [hs, hc]
        · simp [hs, hc, constructWrapper_types_ne hut]
      simp [hne, accessesType, hut]
  | etouch t =>
    rw [step] at h
    obtain ⟨hd, hs⟩ := get_instance_map_some h
    by_cases hut : u = t
    · subst hut
      by_cases hc : (s.types u).constructed <;>
        simp [hc, hs, accessesType]
    · have hne : (s'.types u) = s.types u := by
        by_cases hc : (s.types t).constructed
        · simp [hs, hc]
        · simp [hs, hc, constructWrapper_types_ne hut]
      simp [hne, accessesType, hut]
  | eteardown t =>
    rw [step] at h
    by_cases hg : (s.types t).constructed && !(s.types t).m_is_destroyed
    · rw [if_pos hg] at h
      simp only [Option.some_inj] at h
      by_cases hut : u = t
      · subst hut
        simp only [Bool.and_eq_true, Bool.not_eq_true'] at hg
        simp [← h, accessesType, hg.1, hg.2]
      · have htu : t ≠ u := fun hh => hut hh.symm
        have hne : (s'.types u) = s.types u := by
          simp [← h, Function.update_noteq hut]
        simp [hne, accessesType, hut, htu]
    · simp [hg] at h

/-! ### Run-level lemmas -/

theorem run_constructed {tr : List Event} {s s' : GlobalState} (u : Nat)
    (h : run s tr = some s') :
    (s'.types u).constructed = ((s.types u).constructed || tr.any (accessesType u)) := by
  induction tr generalizing s with
  | nil =>
    simp [run] at h
    simp [h]
  | cons e es ih =>
    simp [run, Option.bind_eq_some] at h
    obtain ⟨s1, h1, h2⟩ := h
    rw [ih h2, (step_effect u h1).1]
    simp [Bool.or_assoc]

theorem run_destroyed {tr : List Event} {s s' : GlobalState} (u : Nat)
    (h : run s tr = some s') :
    (s'.types u).m_is_destroyed
      = ((s.types u).m_is_destroyed || tr.any fun e => decide (e = Event.eteardown u)) := by
  induction tr generalizing s with
  | nil =>
    simp [run] at h
    simp [h]
  | cons e es ih =>
    simp [run, Option.bind_eq_some] at h
    obtain ⟨s1, h1, h2⟩ := h
    rw [ih h2, (step_effect u h1).2.1]
    simp [Bool.or_assoc]

theorem run_instId {tr : List Event} {s s' : GlobalState} (u : Nat)
    (h : run s tr = some s') (hc : (s.types u).constructed = true) :
    (s'.types u).instId = (s.types u).instId ∧ (s'.types u).constructed = true := by
  induction tr generalizing s with
  | nil =>
    simp [run] at h
    subst h
    exact ⟨rfl, hc⟩
  | cons e es ih =>
    simp [run, Option.bind_eq_some] at h
    obtain ⟨s1, h1, h2⟩ := h
    have e1 := step_effect u h1
    have hc1 : (s1.types u).constructed = true := by rw [e1.1, hc]; simp
    obtain ⟨ha, hb⟩ := ih h2 hc1
    exact ⟨ha.trans (e1.2.2.1 hc), hb⟩

theorem run_count {tr : List Event} {s s' : GlobalState} (u : Nat)
    (h : run s tr = some s') :
    (s'.types u).constructCount
      = (s.types u).constructCount +
          (if !(s.types u).constructed && tr.any (accessesType u) then 1 else 0) := by
  induction tr generalizing s with
  | nil =>
    simp [run] at h
    simp [h]
  | cons e es ih =>
    simp [run, Option.bind_eq_some] at h
    obtain ⟨s1, h1, h2⟩ := h
    have e1 := step_effect u h1
    rw [ih h2, e1.2.2.2, e1.1]
    by_cases hc : (s.types u).constructed
    · simp [hc]
    · simp only [Bool.not_eq_true] at hc
      by_cases ha : accessesType u e
      · simp [hc, ha]
      · simp only [Bool.not_eq_true] at ha
        simp [hc, ha]

theorem run_reachable {tr : List Event} {s s' : GlobalState}
    (hr : Reachable s) (h : run s tr = some s') : Reachable s' := by
  induction tr generalizing s with
  | nil =>
    simp [run] at h
    exact h ▸ hr
  | cons e es ih =>
    simp [run, Option.bind_eq_some] at h
    obtain ⟨s1, h1, h2⟩ := h
    exact ih (Reachable.next hr h1) h2

/-- Invariant of reachable states: a never-constructed wrapper is not
destroyed (its destructor cannot have run), and the wrapped constructor has
run exactly once when constructed and never otherwise. -/
theorem reachable_inv {s : GlobalState} (hr : Reachable s) (u : Nat) :
    ((s.types u).constructed = false → (s.types u).m_is_destroyed = false) ∧
    (s.types u).constructCount = (if (s.types u).constructed then 1 else 0) := by
  induction hr with
  | init => simp [initState, initPerType]
  | next hr hstep ih =>
    rename_i s e s'
    have e1 := step_effect u hstep
    constructor
    · intro hc'
      rw [e1.1] at hc'
      simp only [Bool.or_eq_false_iff] at hc'
      rw [e1.2.1, ih.1 hc'.1]
      simp only [Bool.false_or, decide_eq_false_iff_not]
      intro he
      subst he
      have hco := step_teardown_constructed hstep
      rw [hc'.1] at hco
      exact Bool.false_ne_true hco
    · rw [e1.2.2.2, e1.1, ih.2]
      by_cases hc : (s.types u).constructed
      · simp [hc]
      · simp only [Bool.not_eq_true] at hc
        by_cases ha : accessesType u e
        · simp [hc, ha]
        · simp only [Bool.not_eq_true] at ha
          simp [hc, ha]

/-! ### The `USE_UNM_SINGLETON` thread-safe variant (lines 90-159) -/

/-- Per-type static state of `singleton<T, threadsafe>`: the `boost::mutex`
(held flag plus an acquisition counter, so "the lock was taken" is
observable), the `initialized` flag, and the function-local static with its
identity bookkeeping.  This variant has no destroyed flag and no gate. -/
structure TSState where
  mtxHeld : Bool
  acquireCount : Nat
  initialized : Bool
  constructed : Bool
  instId : Nat
  nextId : Nat
  constructCount : Nat
deriving DecidableEq, Repr

/-- Load-time state of the variant: mutex free, `initialized = false`. -/
def tsInit : TSState :=
  { mtxHeld := false, acquireCount := 0, initialized := false, constructed := false,
    instId := 0, nextId := 0, constructCount := 0 }

/-- Embedding of `singleton<T, threadsafe>::get_instance` (lines 103-118): double-checked
locking around the function-local static, then `initialized = true`, then
unlock if the lock was taken.  No assertion can fire. -/
def ts_get_instance (threadsafe : Bool) (s : TSState) : Nat × TSState :=
  let locked := threadsafe && !s.initialized
  let s1 := if locked then { s with mtxHeld := true, acquireCount := s.acquireCount + 1 } else s
  let s2 :=
    if s1.constructed then s1
    else { s1 with
      constructed := true
      instId := s1.nextId
      nextId := s1.nextId + 1
      constructCount := s1.constructCount + 1 }
  let s3 := { s2 with initialized := true }
  let s4 := if locked then { s3 with mtxHeld := false } else s3
  (s4.instId, s4)

/-- Embedding of `singleton<T, threadsafe>::get_mutable_instance` (lines 121-124). -/
def ts_get_mutable_instance (threadsafe : Bool) (s : TSState) : Nat × TSState :=
  ts_get_instance threadsafe s

/-- Embedding of `singleton<T, threadsafe>::get_const_instance` (lines 126-129). -/
def ts_get_const_instance (threadsafe : Bool) (s : TSState) : Nat × TSState :=
  ts_get_instance threadsafe s

/-! ### Concrete states used to exercise the theorems -/

/-- Either accessor of the default design, chosen by a flag (`true` for
`get_mutable_instance`). -/
def accessor (m : Bool) (t : Nat) (s : GlobalState) : Except AssertKind (Nat × GlobalState) :=
  if m then get_mutable_instance t s else get_const_instance t s

/-- A trace that constructs type 0 and then tears it down. -/
def trD : List Event := [Event.econst 0, Event.eteardown 0]

/-- The state after `trD`: type 0 constructed and destroyed, gate unlocked. -/
def sD : GlobalState := (run initState trD).getD initState

/-- The state after one `get_const_instance` call on type 0. -/
def sC : GlobalState := (run initState [Event.econst 0]).getD initState

/-- A trace with the eager touch and both accessors on type 0. -/
def trT : List Event := [Event.etouch 0, Event.econst 0, Event.emut 0]

/-- The state after `trT`. -/
def sT : GlobalState := (run initState trT).getD initState

/-- A successful accessor call returns the identity of the (now) constructed
wrapper. -/
theorem accessor_ok {m : Bool} {t : Nat} {s s' : GlobalState} {r : Nat}
    (h : accessor m t s = Except.ok (r, s')) :
    (s'.types t).constructed = true ∧ (s'.types t).instId = r := by
  have hgi : get_instance t s = Except.ok (r, s') := by
    cases m with
    | true =>
      rw [accessor, if_pos rfl, get_mutable_instance] at h
      by_cases hl : is_locked s
      · rw [if_pos hl] at h; exact absurd h (by simp)
      · rw [if_neg hl] at h; exact h
    | false => rwa [accessor, if_neg (by simp), get_const_instance] at h
  rw [get_instance_eq] at hgi
  by_cases hd : (s.types t).m_is_destroyed
  · rw [if_pos hd] at hgi; exact absurd hgi (by simp)
  · rw [if_neg hd] at hgi
    by_cases hc : (s.types t).constructed
    · rw [if_pos hc] at hgi
      simp only [Except.ok.injEq, Prod.mk.injEq] at hgi
      exact ⟨hgi.2 ▸ hc, by rw [← hgi.2, hgi.1]⟩
    · rw [if_neg hc] at hgi
      simp only [Except.ok.injEq, Prod.mk.injEq] at hgi
      rw [← hgi.2, ← hgi.1]
      simp

/-- A successful accessor call on an already constructed wrapper hands back
that wrapper's identity. -/
theorem accessor_ok_constructed {m : Bool} {t : Nat} {s s' : GlobalState} {r : Nat}
    (h : accessor m t s = Except.ok (r, s')) (hc : (s.types t).constructed = true) :
    r = (s.types t).instId := by
  have hgi : get_instance t s = Except.ok (r, s') := by
    cases m with
    | true =>
      rw [accessor, if_pos rfl, get_mutable_instance] at h
      by_cases hl : is_locked s
      · rw [if_pos hl] at h; exact absurd h (by simp)
      · rw [if_neg hl] at h; exact h
    | false => rwa [accessor, if_neg (by simp), get_const_instance] at h
  rw [get_instance_eq] at hgi
  by_cases hd : (s.types t).m_is_destroyed
  · rw [if_pos hd] at hgi; exact absurd hgi (by simp)
  · rw [if_neg hd, if_pos hc] at hgi
    simp only [Except.ok.injEq, Prod.mk.injEq] at hgi
    exact hgi.1.symm

/-! ### Claim theorems -/

/-- C1: In the default design, whenever the gate is locked,
`get_mutable_instance` triggers the fatal-stop lock assertion
(`BOOST_ASSERT(! is_locked())`); `get_const_instance` never triggers that
assertion, and its outcome is entirely independent of the gate's state. -/
theorem C1_locked_gate_semantics (s : GlobalState) (t : Nat) :
    (s.locked = true → get_mutable_instance t s = Except.error AssertKind.lockViolation) ∧
    get_const_instance t s ≠ Except.error AssertKind.lockViolation ∧
    (∀ b, get_const_instance t { s with locked := b }
      = (get_const_instance t s).map fun p => (p.1, { p.2 with locked := b })) := by
  refine ⟨fun hl => ?_, ?_, fun b => ?_⟩
  · rw [get_mutable_instance, if_pos (show is_locked s = true from hl)]
  · rw [get_const_instance, get_instance_eq]
    by_cases hd : (s.types t).m_is_destroyed
    · simp [hd]
    · by_cases hc : (s.types t).constructed <;> simp [hd, hc]
  · rw [get_const_instance, get_const_instance, get_instance_eq, get_instance_eq]
    show (if (s.types t).m_is_destroyed then _ else _) = _
    by_cases hd : (s.types t).m_is_destroyed
    · simp [hd, Except.map]
    · by_cases hc : (s.types t).constructed
      · simp [hd, hc, Except.map]
      · simp [hd, hc, Except.map]
        rfl

/-- Witness for C1 at a concrete locked state. -/
theorem C1_locked_gate_semantics_witness :
    get_mutable_instance 0 (lock initState) = Except.error AssertKind.lockViolation :=
  (C1_locked_gate_semantics (lock initState) 0).1 rfl

/-- C2: any two successful accessor calls (mutable or const, in any order,
with any successful activity in between) on the same type return the same
reference identity. -/
theorem C2_reference_identity (m1 m2 : Bool) (t : Nat) (tr : List Event)
    (s s1 s2 s3 : GlobalState) (r1 r2 : Nat)
    (h1 : accessor m1 t s = Except.ok (r1, s1))
    (h2 : run s1 tr = some s2)
    (h3 : accessor m2 t s2 = Except.ok (r2, s3)) :
    r1 = r2 := by
  obtain ⟨hc1, hi1⟩ := accessor_ok h1
  obtain ⟨hi2, hc2⟩ := run_instId t h2 hc1
  rw [accessor_ok_constructed h3 hc2, hi2, hi1]

/-- Witness for C2: a const call then a mutable call on type 0 both hand
out identity 0. -/
theorem C2_reference_identity_witness :
    accessor false 0 initState = Except.ok (0, sC) ∧
    accessor true 0 sC = Except.ok (0, sC) ∧
    (0 : Nat) = 0 :=
  ⟨rfl, rfl, C2_reference_identity false true 0 [] initState sC sC sC 0 0 rfl rfl rfl⟩

/-- C3: the per-type destroyed flag starts `false` and, along any successful
run, is `true` exactly when that type's teardown has happened — so it is set
only by the wrapper's own destruction step and never reverts. -/
theorem C3_destroyed_monotone (t : Nat) (tr : List Event) (s : GlobalState) :
    (initState.types t).m_is_destroyed = false ∧
    (run initState tr = some s →
      ((s.types t).m_is_destroyed = true ↔ Event.eteardown t ∈ tr)) := by
  refine ⟨rfl, fun h => ?_⟩
  rw [run_destroyed t h]
  simp [initState, initPerType, List.any_eq_true]

/-- Witness for C3 on the construct-then-teardown trace. -/
theorem C3_destroyed_monotone_witness :
    run initState trD = some sD ∧
    ((sD.types 0).m_is_destroyed = true ↔ Event.eteardown 0 ∈ trD) :=
  ⟨rfl, (C3_destroyed_monotone 0 trD sD).2 rfl⟩

/-- C4: along any successful run the wrapped constructor runs exactly once
when some accessor (or the eager static touch) for the type occurs, and never
otherwise — in particular never more than once, the eager touch included. -/
theorem C4_construct_once (t : Nat) (tr : List Event) (s : GlobalState)
    (h : run initState tr = some s) :
    (s.types t).constructCount = (if tr.any (accessesType t) then 1 else 0) ∧
    (s.types t).constructCount ≤ 1 := by
  have hc := run_count t h
  rw [hc]
  constructor
  · simp [initState, initPerType]
  · simp only [initState, initPerType]
    split <;> simp

/-- Witness for C4: eager touch plus two accessor calls still construct
exactly once. -/
theorem C4_construct_once_witness :
    run initState trT = some sT ∧ (sT.types 0).constructCount = 1 :=
  ⟨rfl, by rw [(C4_construct_once 0 trT sT rfl).1]; decide⟩

/-- C5 counterexample: after teardown of type 0 (gate unlocked, no
reconstruction anywhere), a plain `get_const_instance` call — and likewise a
`get_mutable_instance` call — already hits the fatal-stop assertion, so
use-after-destroy IS auto-detected on every accessor call, not only on
construction-time re-entry. -/
theorem C5_counterexample :
    run initState trD = some sD ∧
    (sD.types 0).m_is_destroyed = true ∧
    sD.locked = false ∧
    get_const_instance 0 sD = Except.error AssertKind.destroyedViolation ∧
    get_mutable_instance 0 sD = Except.error AssertKind.destroyedViolation :=
  ⟨rfl, rfl, rfl, rfl, rfl⟩

/-- C5 (amended): in a debug build, use-after-destroy is auto-detected on
every accessor call: once the destroyed flag is set, `get_const_instance`
fatally stops on the `BOOST_ASSERT(! m_is_destroyed)` in `get_instance`, and
`get_mutable_instance` fatally stops as well (on the lock assertion first
when the gate is locked); `is_destroyed()` additionally lets cooperating code
check the flag without any assertion. -/
theorem C5_destroy_detection_amended (s : GlobalState) (t : Nat)
    (hd : (s.types t).m_is_destroyed = true) :
    get_const_instance t s = Except.error AssertKind.destroyedViolation ∧
    get_mutable_instance t s
      = (if is_locked s then Except.error AssertKind.lockViolation
         else Except.error AssertKind.destroyedViolation) ∧
    (is_destroyed t s).1 = true ∧ (is_destroyed t s).2 = s := by
  refine ⟨?_, ?_, hd, rfl⟩
  · rw [get_const_instance, get_instance_eq, if_pos hd]
  · rw [get_mutable_instance]
    by_cases hl : is_locked s
    · rw [if_pos hl, if_pos hl]
    · rw [if_neg hl, if_neg hl, get_instance_eq, if_pos hd]

/-- Witness for the amended C5 at the concrete destroyed state. -/
theorem C5_destroy_detection_amended_witness :
    get_const_instance 0 sD = Except.error AssertKind.destroyedViolation :=
  (C5_destroy_detection_amended sD 0 rfl).1

/-- C6: the gate starts unlocked; `lock`/`unlock` are total, idempotent
toggles observed by `is_locked`; they touch nothing but the single gate
boolean; and the gate is one global flag — after `lock`, the mutable
accessor of every type hits the lock assertion. -/
theorem C6_gate_algebra (s : GlobalState) (t : Nat) :
    is_locked initState = false ∧
    is_locked (lock s) = true ∧
    is_locked (unlock s) = false ∧
    lock (lock s) = lock s ∧
    unlock (unlock s) = unlock s ∧
    (lock s).types = s.types ∧
    (unlock s).types = s.types ∧
    get_mutable_instance t (lock s) = Except.error AssertKind.lockViolation :=
  ⟨rfl, rfl, rfl, rfl, rfl, rfl, rfl, rfl⟩

/-- C7: in the thread-safe variant, once `initialized` is true neither
accessor touches the mutex; when `initialized` is still false, `get_instance`
acquires the mutex exactly once and releases it before returning; and every
call leaves `initialized` true.  (This variant has no lock-gate assertion and
no destroyed flag: its accessors are total and `TSState` carries no such
flag.) -/
theorem C7_ts_lock_only_first (s : TSState) :
    (s.initialized = true →
      (ts_get_mutable_instance true s).2.acquireCount = s.acquireCount ∧
      (ts_get_mutable_instance true s).2.mtxHeld = s.mtxHeld ∧
      (ts_get_const_instance true s).2.acquireCount = s.acquireCount ∧
      (ts_get_const_instance true s).2.mtxHeld = s.mtxHeld) ∧
    (s.initialized = false →
      (ts_get_instance true s).2.acquireCount = s.acquireCount + 1 ∧
      (ts_get_instance true s).2.mtxHeld = false) ∧
    (ts_get_instance true s).2.initialized = true := by
  refine ⟨fun hi => ?_, fun hi => ?_, ?_⟩
  · rw [ts_get_mutable_instance, ts_get_const_instance, ts_get_instance]
    by_cases hc : s.constructed <;> simp [hi, hc]
  · rw [ts_get_instance]
    by_cases hc : s.constructed <;> simp [hi, hc]
  · rw [ts_get_instance]
    by_cases hi : s.initialized <;> by_cases hc : s.constructed <;> simp [hi, hc]

/-- Witness for C7: after a first call on the fresh state, a second call
leaves the acquisition count unchanged. -/
theorem C7_ts_lock_only_first_witness :
    (ts_get_instance true tsInit).2.initialized = true ∧
    (ts_get_mutable_instance true (ts_get_instance true tsInit).2).2.acquireCount
      = (ts_get_instance true tsInit).2.acquireCount :=
  ⟨rfl, ((C7_ts_lock_only_first (ts_get_instance true tsInit).2).1 rfl).1⟩

/-- C8: every `get_const_instance` call runs the not-destroyed assertion in
`get_instance`: once the destroyed flag is set, even const access fatally
stops in a debug build. -/
theorem C8_const_checks_destroyed (s : GlobalState) (t : Nat)
    (hd : (s.types t).m_is_destroyed = true) :
    get_const_instance t s = Except.error AssertKind.destroyedViolation := by
  rw [get_const_instance, get_instance_eq, if_pos hd]

/-- Witness for C8 at the concrete destroyed state. -/
theorem C8_const_checks_destroyed_witness :
    get_const_instance 0 sD = Except.error AssertKind.destroyedViolation :=
  C8_const_checks_destroyed sD 0 rfl

/-- C9: `is_destroyed` reads the static flag and changes nothing — in
particular it never constructs the instance; on a reachable state whose
wrapper was never accessed it returns `false` and the type stays
unconstructed. -/
theorem C9_is_destroyed_frame (s : GlobalState) (t : Nat) :
    (is_destroyed t s).2 = s ∧
    (is_destroyed t s).1 = (s.types t).m_is_destroyed ∧
    (Reachable s → (s.types t).constructed = false →
      (is_destroyed t s).1 = false ∧ ((is_destroyed t s).2.types t).constructed = false) := by
  refine ⟨rfl, rfl, fun hr hc => ⟨?_, hc⟩⟩
  exact (reachable_inv hr t).1 hc

/-- Witness for C9 on a reachable state where type 1 was never accessed. -/
theorem C9_is_destroyed_frame_witness :
    (is_destroyed 1 sD).1 = false ∧ ((is_destroyed 1 sD).2.types 1).constructed = false :=
  (C9_is_destroyed_frame sD 1).2.2
    (run_reachable Reachable.init (show run initState trD = some sD from rfl)) rfl

/-- C10: `lock` and `unlock` modify only the gate boolean: every type's
per-type statics (constructed state, identity, destroyed flag, construction
count) and the identity counter are untouched. -/
theorem C10_gate_frame (s : GlobalState) (t : Nat) :
    (lock s).types t = s.types t ∧
    (unlock s).types t = s.types t ∧
    (lock s).nextId = s.nextId ∧
    (unlock s).nextId = s.nextId :=
  ⟨rfl, rfl, rfl, rfl⟩

end BoostSingleton
